import Mathlib

/-!
Shallow embedding of the task-list client application:
the session store (src/store/authStore.ts), the login submit handler
(src/app/login/page.tsx), the session guard (src/app/(protected)/layout.tsx)
and the task list view with its fetch/create/update/delete handlers and
pagination logic (src/app/(protected)/page.tsx).

Each React event handler is modelled as a pure function from its inputs
(current session state, current component state, the validated form values,
and the HTTP response the remote API would give) to a result record listing
the handler observable effects: the HTTP request it issued (if any), the
session state afterwards, the navigation target (router.push argument, if
any), the component-state mutations it performed, and the toasts it showed.
-/

namespace TaskApp

/-- Task status enum (enum Status in page.tsx). -/
inductive Status
  | CRIADO
  | ANDAMENTO
  | CONCLUIDO
deriving DecidableEq, Repr

/-- String value of a status, as sent over the wire. -/
def Status.toStr : Status → String
  | .CRIADO => "CRIADO"
  | .ANDAMENTO => "ANDAMENTO"
  | .CONCLUIDO => "CONCLUIDO"

/-- User profile record (interface User in authStore.ts). -/
structure User where
  id : String
  name : String
  email : String
deriving DecidableEq, Repr

/-- Task record (interface Task in page.tsx). -/
structure Task where
  id : String
  title : String
  description : String
  status : Status
  userId : String
  createdAt : String
  updatedAt : String
deriving DecidableEq, Repr

/-- Session store state: token and user, both nullable (authStore.ts). -/
structure AuthState where
  token : Option String
  user : Option User
deriving DecidableEq, Repr

/-- setToken of the store: set \x7b token \x7d merges, leaving user as is. -/
def setToken (t : Option String) (s : AuthState) : AuthState :=
  { s with token := t }

/-- setUser of the store: set \x7b user \x7d merges, leaving token as is. -/
def setUser (u : Option User) (s : AuthState) : AuthState :=
  { s with user := u }

/-- clearAuth of the store: sets token and user to null in one set call. -/
def clearAuth (_s : AuthState) : AuthState :=
  { token := none, user := none }

/-- HTTP method of an axios call. -/
inductive Method
  | GET
  | POST
  | PUT
  | DELETE
deriving DecidableEq, Repr

/-- An outgoing HTTP request: method, url, query parameters (in append
order, as built by URLSearchParams), bearer token of the Authorization
header, and a typed body. -/
structure Request (β : Type) where
  method : Method
  url : String
  query : List (String × String)
  bearer : Option String
  body : β
deriving DecidableEq, Repr

/-- A failed axios call: either an HTTP response with a status and an
optional server message (error.response.status / error.response.data.message),
or a network failure with no response. -/
inductive ApiError
  | http (status : Nat) (message : Option String)
  | network
deriving DecidableEq, Repr

/-- error.response?.data?.message of an axios error. -/
def ApiError.message? : ApiError → Option String
  | .http _ m => m
  | .network => none

/-- Whether error.response?.status === 401 holds for an axios error. -/
def ApiError.is401 : ApiError → Bool
  | .http s _ => s == 401
  | .network => false

/-- Status filter of the list view: the literal all, or one concrete
status (useState of filterStatus, typed Status | all in page.tsx). -/
inductive StatusFilter
  | all
  | only (s : Status)
deriving DecidableEq, Repr

/-- The string held by the filter select control for a filter value. -/
def StatusFilter.toStr : StatusFilter → String
  | .all => "all"
  | .only s => s.toStr

/-- Ephemeral list-query state of the task list view. -/
structure ListQueryState where
  currentPage : Nat
  pageSize : Nat
  searchTerm : String
  filterStatus : StatusFilter
deriving DecidableEq, Repr

/-- Query parameters built by fetchTasks (page.tsx lines 139 to 148):
page and pageSize always; search only when searchTerm is truthy (a
non-empty string); status only when filterStatus is truthy and differs
from the literal all. -/
def fetchTasksParams (q : ListQueryState) : List (String × String) :=
  let ps := [("page", toString q.currentPage), ("pageSize", toString q.pageSize)]
  let ps := if q.searchTerm ≠ "" then ps ++ [("search", q.searchTerm)] else ps
  if q.filterStatus.toStr ≠ "" ∧ q.filterStatus.toStr ≠ "all" then
    ps ++ [("status", q.filterStatus.toStr)]
  else ps

/-- Successful payload of the list endpoint: response.data.items and
response.data.pagination.totalItems. -/
structure TaskPageData where
  items : List Task
  totalItems : Nat
deriving DecidableEq, Repr

/-- Observable outcome of one run of fetchTasks. -/
structure FetchTasksResult where
  request : Option (Request Unit)
  tasks : List Task
  totalTasks : Nat
  loadingTasks : Bool
  auth : AuthState
  navigation : Option String
  errorToast : Option String
deriving DecidableEq, Repr

/-- fetchTasks (page.tsx lines 131 to 169). With no token it only clears
the loading flag. Otherwise it issues GET /task with the built params;
on success it replaces tasks and totalTasks; on failure it toasts the
server message (or a fallback) and, exactly when the status is 401,
clears the session and navigates to /login. -/
def fetchTasks (auth : AuthState) (q : ListQueryState) (tasks : List Task)
    (totalTasks : Nat) (resp : Except ApiError TaskPageData) : FetchTasksResult :=
  match auth.token with
  | none =>
      { request := none, tasks := tasks, totalTasks := totalTasks,
        loadingTasks := false, auth := auth, navigation := none, errorToast := none }
  | some tok =>
      let req : Request Unit :=
        { method := .GET, url := "http://localhost:3333/task",
          query := fetchTasksParams q, bearer := some tok, body := () }
      match resp with
      | .ok d =>
          { request := some req, tasks := d.items, totalTasks := d.totalItems,
            loadingTasks := false, auth := auth, navigation := none, errorToast := none }
      | .error e =>
          if e.is401 then
            { request := some req, tasks := tasks, totalTasks := totalTasks,
              loadingTasks := false, auth := clearAuth auth,
              navigation := some "/login",
              errorToast := some (e.message?.getD "Erro ao carregar tarefas.") }
          else
            { request := some req, tasks := tasks, totalTasks := totalTasks,
              loadingTasks := false, auth := auth, navigation := none,
              errorToast := some (e.message?.getD "Erro ao carregar tarefas.") }

/-- Validated create-task form values (createTaskSchema: title a string,
description an optional string). -/
structure CreateTaskFormValues where
  title : String
  description : Option String
deriving DecidableEq, Repr

/-- createTaskSchema validation (page.tsx lines 74 to 79): title at least
3 characters; description unconstrained. -/
def createTaskSchemaCheck (v : CreateTaskFormValues) : Bool :=
  3 ≤ v.title.length

/-- Observable outcome of one run of handleCreateTask. A component-state
setter recorded as none was not called; some b records a call with b. -/
structure CreateTaskResult where
  request : Request CreateTaskFormValues
  auth : AuthState
  navigation : Option String
  setIsCreating : Option Bool
  formReset : Bool
  refetchCount : Nat
  successToast : Option String
  errorToast : Option String
deriving DecidableEq, Repr

/-- handleCreateTask (page.tsx lines 194 to 209): POST /task with the
form values as body; on success toast, reset the form, close the dialog
and call fetchTasks once; on any failure only toast. It never touches
the session store and never navigates. -/
def handleCreateTask (auth : AuthState) (values : CreateTaskFormValues)
    (resp : Except ApiError Unit) : CreateTaskResult :=
  let req : Request CreateTaskFormValues :=
    { method := .POST, url := "http://localhost:3333/task", query := [],
      bearer := auth.token, body := values }
  match resp with
  | .ok _ =>
      { request := req, auth := auth, navigation := none,
        setIsCreating := some false, formReset := true, refetchCount := 1,
        successToast := some "Tarefa criada com sucesso!", errorToast := none }
  | .error e =>
      { request := req, auth := auth, navigation := none,
        setIsCreating := none, formReset := false, refetchCount := 0,
        successToast := none,
        errorToast := some (e.message?.getD "Erro ao criar tarefa.") }

/-- The create submit pipeline: handleSubmit runs the zod resolver first,
so handleCreateTask runs (and the POST goes out) only when
createTaskSchema accepts the values. -/
def createTaskSubmit (auth : AuthState) (values : CreateTaskFormValues)
    (resp : Except ApiError Unit) : Option CreateTaskResult :=
  if createTaskSchemaCheck values then some (handleCreateTask auth values resp)
  else none

/-- Validated update-task form values (updateTaskSchema: id required,
title, description and status optional). -/
structure UpdateTaskFormValues where
  id : String
  title : Option String
  description : Option String
  status : Option Status
deriving DecidableEq, Repr

/-- Observable outcome of one run of handleUpdateTask. -/
structure UpdateTaskResult where
  request : Option (Request UpdateTaskFormValues)
  auth : AuthState
  navigation : Option String
  setIsEditing : Option Bool
  setEditingTask : Option (Option Task)
  refetchCount : Nat
  successToast : Option String
  errorToast : Option String
deriving DecidableEq, Repr

/-- handleUpdateTask (page.tsx lines 222 to 239): with no task selected
it returns early; otherwise PUT /task/:id with the form values; on
success close the dialog, clear the selection and call fetchTasks once;
on any failure only toast. It never touches the session store and never
navigates. -/
def handleUpdateTask (auth : AuthState) (editingTask : Option Task)
    (values : UpdateTaskFormValues) (resp : Except ApiError Unit) : UpdateTaskResult :=
  match editingTask with
  | none =>
      { request := none, auth := auth, navigation := none, setIsEditing := none,
        setEditingTask := none, refetchCount := 0, successToast := none,
        errorToast := none }
  | some t =>
      let req : Request UpdateTaskFormValues :=
        { method := .PUT, url := "http://localhost:3333/task/" ++ t.id,
          query := [], bearer := auth.token, body := values }
      match resp with
      | .ok _ =>
          { request := some req, auth := auth, navigation := none,
            setIsEditing := some false, setEditingTask := some none,
            refetchCount := 1,
            successToast := some "Tarefa atualizada com sucesso!", errorToast := none }
      | .error e =>
          { request := some req, auth := auth, navigation := none,
            setIsEditing := none, setEditingTask := none, refetchCount := 0,
            successToast := none,
            errorToast := some (e.message?.getD "Erro ao atualizar tarefa.") }

/-- Observable outcome of one run of handleDeleteTask. -/
structure DeleteTaskResult where
  request : Option (Request Unit)
  auth : AuthState
  navigation : Option String
  setIsConfirmingDelete : Option Bool
  setTaskToDelete : Option (Option String)
  refetchCount : Nat
  successToast : Option String
  errorToast : Option String
deriving DecidableEq, Repr

/-- handleDeleteTask (page.tsx lines 246 to 263): with no target it
returns early; otherwise DELETE /task/:id; on success close the dialog,
clear the selection and call fetchTasks once; on any failure only toast.
It never touches the session store and never navigates. -/
def handleDeleteTask (auth : AuthState) (taskToDelete : Option String)
    (resp : Except ApiError Unit) : DeleteTaskResult :=
  match taskToDelete with
  | none =>
      { request := none, auth := auth, navigation := none,
        setIsConfirmingDelete := none, setTaskToDelete := none,
        refetchCount := 0, successToast := none, errorToast := none }
  | some tid =>
      let req : Request Unit :=
        { method := .DELETE, url := "http://localhost:3333/task/" ++ tid,
          query := [], bearer := auth.token, body := () }
      match resp with
      | .ok _ =>
          { request := some req, auth := auth, navigation := none,
            setIsConfirmingDelete := some false, setTaskToDelete := some none,
            refetchCount := 1,
            successToast := some "Tarefa excluída com sucesso!", errorToast := none }
      | .error e =>
          { request := some req, auth := auth, navigation := none,
            setIsConfirmingDelete := none, setTaskToDelete := none,
            refetchCount := 0, successToast := none,
            errorToast := some (e.message?.getD "Erro ao excluir tarefa.") }

/-- Validated login form values (loginFormSchema). -/
structure LoginFormValues where
  email : String
  password : String
deriving DecidableEq, Repr

/-- Successful payload of the login endpoint: response.data.token and
response.data.user. -/
structure LoginResponseData where
  token : String
  user : User
deriving DecidableEq, Repr

/-- Observable outcome of one run of the login onSubmit handler. -/
structure LoginResult where
  request : Request LoginFormValues
  auth : AuthState
  navigation : Option String
  successToast : Option String
  errorToast : Option String
deriving DecidableEq, Repr

/-- onSubmit of the login page (login/page.tsx lines 48 to 71): POST
/user/login with the credentials; on success store the returned token
and user via setToken and setUser and navigate to the protected root;
on failure only toast the server message or a fallback. -/
def onSubmitLogin (auth : AuthState) (values : LoginFormValues)
    (resp : Except ApiError LoginResponseData) : LoginResult :=
  let req : Request LoginFormValues :=
    { method := .POST, url := "http://localhost:3333/user/login", query := [],
      bearer := none, body := values }
  match resp with
  | .ok d =>
      { request := req,
        auth := setUser (some d.user) (setToken (some d.token) auth),
        navigation := some "/",
        successToast := some "Login realizado com sucesso!", errorToast := none }
  | .error e =>
      { request := req, auth := auth, navigation := none, successToast := none,
        errorToast := some (e.message?.getD "Erro ao fazer login. Tente novamente.") }

/-- Observable outcome of one run of the guard verifyAuth. -/
structure VerifyAuthResult where
  request : Option (Request Unit)
  auth : AuthState
  navigation : Option String
  errorToast : Option String
  loading : Bool
deriving DecidableEq, Repr

/-- verifyAuth of the session guard (layout.tsx lines 19 to 50): no token
means navigate to /login with a toast; token with a cached user means
pass through; token without a user means GET /user/profile, caching the
profile on success and, on any failure, clearing the session, toasting
and navigating to /login. -/
def verifyAuth (auth : AuthState) (resp : Except ApiError User) : VerifyAuthResult :=
  match auth.token with
  | none =>
      { request := none, auth := auth, navigation := some "/login",
        errorToast := some "Você precisa estar logado para acessar esta página.",
        loading := false }
  | some tok =>
      match auth.user with
      | some _ =>
          { request := none, auth := auth, navigation := none,
            errorToast := none, loading := false }
      | none =>
          let req : Request Unit :=
            { method := .GET, url := "http://localhost:3333/user/profile",
              query := [], bearer := some tok, body := () }
          match resp with
          | .ok u =>
              { request := some req, auth := setUser (some u) auth,
                navigation := none, errorToast := none, loading := false }
          | .error _ =>
              { request := some req, auth := clearAuth auth,
                navigation := some "/login",
                errorToast := some "Sessão expirada ou inválida. Faça login novamente.",
                loading := false }

/-- totalPages (page.tsx line 265): Math.ceil(totalTasks / pageSize),
with the real-number division and ceiling modelled over ℚ. -/
def totalPages (totalTasks pageSize : Nat) : Nat :=
  ⌈(totalTasks : ℚ) / (pageSize : ℚ)⌉₊

/-- Whether the pagination block is rendered (page.tsx line 462 renders
it under the condition totalPages > 1). -/
def paginationShown (tp : Nat) : Bool :=
  decide (1 < tp)

/-- The page reached by the previous-page control (page.tsx line 469):
setCurrentPage to Math.max(1, prev - 1). -/
def prevPageClick (p : Nat) : Nat :=
  max 1 (p - 1)

/-- The page reached by the next-page control (page.tsx line 495):
setCurrentPage to Math.min(totalPages, prev + 1). -/
def nextPageClick (tp p : Nat) : Nat :=
  min tp (p + 1)

/-- Whether the previous-page control is disabled (page.tsx lines 471
to 477: aria-disabled and pointer-events-none when currentPage === 1). -/
def prevDisabled (p : Nat) : Bool :=
  p == 1

/-- Whether the next-page control is disabled (page.tsx lines 497 to
503: aria-disabled and pointer-events-none when currentPage === totalPages). -/
def nextDisabled (tp p : Nat) : Bool :=
  p == tp

/-- Galois characterization of totalPages: it is at most n exactly when
totalTasks fits in n pages, which is the defining property of the
ceiling of totalTasks / pageSize. -/
theorem totalPages_le_iff (t p n : Nat) (hp : 0 < p) :
    totalPages t p ≤ n ↔ t ≤ n * p := by
  rw [totalPages, Nat.ceil_le, div_le_iff₀ (by exact_mod_cast hp)]
  exact_mod_cast Iff.rfl

/-- totalPages agrees with the closed-form natural-number ceiling
division (totalTasks + pageSize - 1) / pageSize. -/
theorem totalPages_eq_pred_div (t p : Nat) (hp : 0 < p) :
    totalPages t p = (t + p - 1) / p := by
  rw [← Nat.ceilDiv_eq_add_pred_div]
  apply Nat.le_antisymm
  · rw [totalPages_le_iff t p _ hp, mul_comm, ← smul_eq_mul]
    exact le_smul_ceilDiv hp
  · rw [ceilDiv_le_iff_le_smul hp, smul_eq_mul, mul_comm]
    exact (totalPages_le_iff t p _ hp).1 le_rfl

/-- Claim C1, counterexample: a create call that fails with HTTP 401
does not clear the session and does not navigate anywhere, so the 401
handling is not uniform across the five operations. Here the session
still holds its token and user afterwards and no navigation occurs. -/
theorem C1_counterexample :
    (handleCreateTask ⟨some "t1", some ⟨"u1", "A", "a@b.com"⟩⟩ ⟨"Buy milk", none⟩
        (.error (.http 401 none))).auth =
      ⟨some "t1", some ⟨"u1", "A", "a@b.com"⟩⟩ ∧
    (handleCreateTask ⟨some "t1", some ⟨"u1", "A", "a@b.com"⟩⟩ ⟨"Buy milk", none⟩
        (.error (.http 401 none))).navigation = none ∧
    ¬ ((handleCreateTask ⟨some "t1", some ⟨"u1", "A", "a@b.com"⟩⟩ ⟨"Buy milk", none⟩
          (.error (.http 401 none))).auth.token = none ∧
        (handleCreateTask ⟨some "t1", some ⟨"u1", "A", "a@b.com"⟩⟩ ⟨"Buy milk", none⟩
          (.error (.http 401 none))).navigation = some "/login") := by
  decide

/-- Claim C1, amended: on HTTP 401 the list fetch clears the session and
navigates to the login view, and the profile fetch of the guard does so
on any failure; the create, update and delete handlers have no such
handling: on any failure, 401 included, they leave the session and the
navigation untouched. -/
theorem C1_amended_401_handling (tok : String) (u : Option User) (a : AuthState)
    (q : ListQueryState) (tasks : List Task) (tot : Nat) (m : Option String)
    (cv : CreateTaskFormValues) (uv : UpdateTaskFormValues) (t : Task)
    (tid : String) (e : ApiError) :
    ((fetchTasks ⟨some tok, u⟩ q tasks tot (.error (.http 401 m))).auth = ⟨none, none⟩ ∧
      (fetchTasks ⟨some tok, u⟩ q tasks tot (.error (.http 401 m))).navigation =
        some "/login") ∧
    ((verifyAuth ⟨some tok, none⟩ (.error e)).auth = ⟨none, none⟩ ∧
      (verifyAuth ⟨some tok, none⟩ (.error e)).navigation = some "/login") ∧
    ((handleCreateTask a cv (.error e)).auth = a ∧
      (handleCreateTask a cv (.error e)).navigation = none) ∧
    ((handleUpdateTask a (some t) uv (.error e)).auth = a ∧
      (handleUpdateTask a (some t) uv (.error e)).navigation = none) ∧
    ((handleDeleteTask a (some tid) (.error e)).auth = a ∧
      (handleDeleteTask a (some tid) (.error e)).navigation = none) := by
  refine ⟨⟨?_, ?_⟩, ⟨rfl, rfl⟩, ⟨rfl, rfl⟩, ⟨rfl, rfl⟩, ⟨rfl, rfl⟩⟩ <;>
    simp [fetchTasks, ApiError.is401, clearAuth]

/-- Claim C2, counterexample: with the initial query state (page 1, page
size 10, empty search term, filter all) the built list query has page
and pageSize but no search parameter, so the search term is not always
transmitted. -/
theorem C2_counterexample :
    fetchTasksParams ⟨1, 10, "", .all⟩ = [("page", "1"), ("pageSize", "10")] ∧
    (fetchTasksParams ⟨1, 10, "", .all⟩).lookup "search" = none := by
  decide

/-- Claim C2, amended: the outgoing list query always carries page and
pageSize; it carries status with the filter value exactly when the
filter is not the literal all; it carries search with the search term
exactly when the search term is non-empty. -/
theorem C2_list_query_params (q : ListQueryState) :
    (fetchTasksParams q).lookup "page" = some (toString q.currentPage) ∧
    (fetchTasksParams q).lookup "pageSize" = some (toString q.pageSize) ∧
    (fetchTasksParams q).lookup "search" =
      (if q.searchTerm = "" then none else some q.searchTerm) ∧
    (fetchTasksParams q).lookup "status" =
      (if q.filterStatus = .all then none else some q.filterStatus.toStr) := by
  obtain ⟨p, ps, s, f⟩ := q
  cases f with
  | all =>
      by_cases hs : s = "" <;>
        simp [fetchTasksParams, StatusFilter.toStr, List.lookup, hs]
  | only st =>
      cases st <;> by_cases hs : s = "" <;>
        simp [fetchTasksParams, StatusFilter.toStr, Status.toStr, List.lookup, hs]

/-- Claim C3: after a successful login submission the session store
holds exactly the token and user of the response and navigation targets
the protected root. -/
theorem C3_login_success (auth : AuthState) (values : LoginFormValues)
    (d : LoginResponseData) :
    (onSubmitLogin auth values (.ok d)).auth.token = some d.token ∧
    (onSubmitLogin auth values (.ok d)).auth.user = some d.user ∧
    (onSubmitLogin auth values (.ok d)).navigation = some "/" :=
  ⟨rfl, rfl, rfl⟩

/-- Claim C4: when the guard holds a token but no cached user and the
profile fetch fails, the session afterwards is token none and user none
and the navigation target is the login view. -/
theorem C4_guard_profile_failure (tok : String) (e : ApiError) :
    (verifyAuth ⟨some tok, none⟩ (.error e)).auth = ⟨none, none⟩ ∧
    (verifyAuth ⟨some tok, none⟩ (.error e)).navigation = some "/login" ∧
    (verifyAuth ⟨some tok, none⟩ (.error e)).request =
      some { method := .GET, url := "http://localhost:3333/user/profile",
             query := [], bearer := some tok, body := () } :=
  ⟨rfl, rfl, rfl⟩

/-- Claim C5: for positive page sizes the computed page count is the
ceiling of totalTasks / pageSize, both as the closed natural-number
formula and through the Galois characterization of the ceiling (it is
the least n such that totalTasks fits in n pages); for zero tasks it is
zero and the pagination block is not rendered. -/
theorem C5_totalPages_ceiling (t p : Nat) (hp : 0 < p) :
    totalPages t p = (t + p - 1) / p ∧
    (∀ n : Nat, totalPages t p ≤ n ↔ t ≤ n * p) ∧
    totalPages 0 p = 0 ∧
    paginationShown (totalPages 0 p) = false := by
  refine ⟨totalPages_eq_pred_div t p hp, fun n => totalPages_le_iff t p n hp, ?_, ?_⟩
  · simp [totalPages]
  · simp [totalPages, paginationShown]

/-- Witness for C5 at totalTasks 5 and pageSize 2: the page count is 3. -/
theorem C5_totalPages_ceiling_witness :
    0 < 2 ∧ totalPages 5 2 = 3 :=
  ⟨by decide, ((C5_totalPages_ceiling 5 2 (by decide)).1).trans (by decide)⟩

/-- Claim C6: for a current page within 1 and totalPages, the
previous-page control lands on max(1, page - 1) and the next-page
control on min(totalPages, page + 1), both inside the valid range with
no wrap-around; the previous control is disabled exactly on page 1 and
the next control exactly on the last page. -/
theorem C6_page_controls (p tp : Nat) (h1 : 1 ≤ p) (h2 : p ≤ tp) :
    prevPageClick p = max 1 (p - 1) ∧
    nextPageClick tp p = min tp (p + 1) ∧
    1 ≤ prevPageClick p ∧ prevPageClick p ≤ tp ∧
    1 ≤ nextPageClick tp p ∧ nextPageClick tp p ≤ tp ∧
    (prevDisabled p = true ↔ p = 1) ∧
    (nextDisabled tp p = true ↔ p = tp) := by
  refine ⟨rfl, rfl, ?_, ?_, ?_, ?_, ?_, ?_⟩ <;>
    simp only [prevPageClick, nextPageClick, prevDisabled, nextDisabled, beq_iff_eq] <;>
    omega

/-- Witness for C6 on page 2 of 3. -/
theorem C6_page_controls_witness :
    1 ≤ 2 ∧ 2 ≤ 3 ∧
    (prevPageClick 2 = max 1 (2 - 1) ∧
      nextPageClick 3 2 = min 3 (2 + 1) ∧
      1 ≤ prevPageClick 2 ∧ prevPageClick 2 ≤ 3 ∧
      1 ≤ nextPageClick 3 2 ∧ nextPageClick 3 2 ≤ 3 ∧
      (prevDisabled 2 = true ↔ 2 = 1) ∧
      (nextDisabled 3 2 = true ↔ 2 = 3)) :=
  ⟨by decide, by decide, C6_page_controls 2 3 (by decide) (by decide)⟩

/-- Claim C7: whenever the create submit pipeline produced a handler
run, the title passed the 3-character validation; the issued request is
a POST to the task endpoint whose body is exactly the form values; on
success the dialog is closed, the form reset and exactly one re-fetch
triggered; and a body with no description carries description none. -/
theorem C7_create_task (auth : AuthState) (values : CreateTaskFormValues)
    (resp : Except ApiError Unit) (r : CreateTaskResult)
    (h : createTaskSubmit auth values resp = some r) :
    3 ≤ values.title.length ∧
    r.request.method = .POST ∧
    r.request.url = "http://localhost:3333/task" ∧
    r.request.body = values ∧
    (resp = .ok () → r.setIsCreating = some false ∧ r.formReset = true ∧
      r.refetchCount = 1 ∧ r.navigation = none ∧ r.auth = auth) ∧
    (values.description = none → r.request.body.description = none) := by
  rw [createTaskSubmit] at h
  by_cases hv : createTaskSchemaCheck values = true
  · rw [if_pos hv] at h
    have hr := Option.some.inj h
    subst hr
    refine ⟨?_, ?_, ?_, ?_, ?_, ?_⟩
    · simpa [createTaskSchemaCheck] using hv
    · cases resp <;> rfl
    · cases resp <;> rfl
    · cases resp <;> rfl
    · rintro rfl
      exact ⟨rfl, rfl, rfl, rfl, rfl⟩
    · intro hd
      cases resp <;> exact hd
  · rw [if_neg hv] at h
    exact Option.noConfusion h

/-- Witness for C7: creating a task titled Buy milk with no description. -/
theorem C7_create_task_witness :
    createTaskSubmit ⟨some "t1", none⟩ ⟨"Buy milk", none⟩ (.ok ()) =
      some (handleCreateTask ⟨some "t1", none⟩ ⟨"Buy milk", none⟩ (.ok ())) ∧
    3 ≤ ("Buy milk" : String).length ∧
    (handleCreateTask ⟨some "t1", none⟩ ⟨"Buy milk", none⟩ (.ok ())).setIsCreating =
      some false ∧
    (handleCreateTask ⟨some "t1", none⟩ ⟨"Buy milk", none⟩ (.ok ())).formReset = true ∧
    (handleCreateTask ⟨some "t1", none⟩ ⟨"Buy milk", none⟩ (.ok ())).refetchCount = 1 ∧
    (handleCreateTask ⟨some "t1", none⟩ ⟨"Buy milk", none⟩
        (.ok ())).request.body.description = none := by
  have hmain := C7_create_task ⟨some "t1", none⟩ ⟨"Buy milk", none⟩ (.ok ())
    (handleCreateTask ⟨some "t1", none⟩ ⟨"Buy milk", none⟩ (.ok ())) rfl
  exact ⟨rfl, hmain.1, (hmain.2.2.2.2.1 rfl).1, (hmain.2.2.2.2.1 rfl).2.1,
    (hmain.2.2.2.2.1 rfl).2.2.1, hmain.2.2.2.2.2 rfl⟩

/-- Claim C8: a failure that is not an HTTP 401, on login, list, create,
update or delete, leaves the session unchanged, triggers no navigation,
and on the list fetch also leaves the cached tasks and total unchanged. -/
theorem C8_non401_failures (auth : AuthState) (e : ApiError) (he : e.is401 = false)
    (q : ListQueryState) (tasks : List Task) (tot : Nat)
    (lv : LoginFormValues) (cv : CreateTaskFormValues)
    (uv : UpdateTaskFormValues) (t : Task) (tid : String) :
    ((onSubmitLogin auth lv (.error e)).auth = auth ∧
      (onSubmitLogin auth lv (.error e)).navigation = none) ∧
    ((fetchTasks auth q tasks tot (.error e)).auth = auth ∧
      (fetchTasks auth q tasks tot (.error e)).navigation = none ∧
      (fetchTasks auth q tasks tot (.error e)).tasks = tasks ∧
      (fetchTasks auth q tasks tot (.error e)).totalTasks = tot) ∧
    ((handleCreateTask auth cv (.error e)).auth = auth ∧
      (handleCreateTask auth cv (.error e)).navigation = none) ∧
    ((handleUpdateTask auth (some t) uv (.error e)).auth = auth ∧
      (handleUpdateTask auth (some t) uv (.error e)).navigation = none) ∧
    ((handleDeleteTask auth (some tid) (.error e)).auth = auth ∧
      (handleDeleteTask auth (some tid) (.error e)).navigation = none) := by
  refine ⟨⟨rfl, rfl⟩, ⟨?_, ?_, ?_, ?_⟩, ⟨rfl, rfl⟩, ⟨rfl, rfl⟩, ⟨rfl, rfl⟩⟩ <;>
    · obtain ⟨tk, u⟩ := auth
      cases tk with
      | none => rfl
      | some tok => simp [fetchTasks, he]

/-- Witness for C8 with a network failure and the initial query state. -/
theorem C8_non401_failures_witness :
    ApiError.network.is401 = false ∧
    (onSubmitLogin ⟨some "t1", none⟩ ⟨"a@b.com", "123456"⟩
        (.error .network)).auth = ⟨some "t1", none⟩ ∧
    (fetchTasks ⟨some "t1", none⟩ ⟨1, 10, "", .all⟩ [] 0
        (.error .network)).navigation = none := by
  have hmain := C8_non401_failures ⟨some "t1", none⟩ .network rfl
    ⟨1, 10, "", .all⟩ [] 0 ⟨"a@b.com", "123456"⟩ ⟨"Buy milk", none⟩
    ⟨"id1", none, none, none⟩
    ⟨"id1", "T", "d", .CRIADO, "u1", "c", "u"⟩ "id123"
  exact ⟨rfl, hmain.1.1, hmain.2.1.2.1⟩

/-- Claim C9: setToken only changes the token, setUser only changes the
user, and clearAuth sets both to none in one store mutation. -/
theorem C9_store_frame (s : AuthState) (t : Option String) (u : Option User) :
    (setToken t s).token = t ∧ (setToken t s).user = s.user ∧
    (setUser u s).user = u ∧ (setUser u s).token = s.token ∧
    clearAuth s = ⟨none, none⟩ :=
  ⟨rfl, rfl, rfl, rfl, rfl⟩

/-- Claim C10: with no session token, fetchTasks issues no request,
leaves the session, the navigation, the cached tasks and the total
count untouched, and only clears the loading flag. -/
theorem C10_fetch_without_token (u : Option User) (q : ListQueryState)
    (tasks : List Task) (tot : Nat) (resp : Except ApiError TaskPageData) :
    fetchTasks ⟨none, u⟩ q tasks tot resp =
      { request := none, tasks := tasks, totalTasks := tot, loadingTasks := false,
        auth := ⟨none, u⟩, navigation := none, errorToast := none } :=
  rfl

end TaskApp
